import Mathlib

/-!
# Verification of the cad-editor scene core

Shallow embedding of the scene-editing core of the `cad-editor` repository:
the entity store, the scene codec (`src/utils/ioUtils.jsx`), the history
manager, the selection/multi-selection handlers, the extrusion pipeline and
the edge/face picking logic (the `ThreeCanvas` component).

Modelling conventions:
* JavaScript numbers are modelled as `ℚ` (all the operations the claims are
  about copy or compare numbers; no float rounding is relevant).
* A thrown JavaScript exception is modelled as `Option.none` / `Except.error`.
* JavaScript `x || d` on numbers (falsy for `0` and `undefined`) is modelled
  by `orQ` below.
* JavaScript object-reference identity is modelled by value equality; the
  concrete scenarios below use shapes with pairwise distinct field values so
  that the two notions coincide.
* Three.js library calls (`Vector3.applyMatrix4`, `Vector3.project`) are
  embedded as rational 4x4 matrix application with perspective divide.
-/

/-- A 2D point (pixel coordinates). -/
structure Vec2 where
  x : ℚ
  y : ℚ
deriving DecidableEq, Repr

/-- A 3D point/vector (`THREE.Vector3` data). -/
structure Vec3 where
  x : ℚ
  y : ℚ
  z : ℚ
deriving DecidableEq, Repr

/-- Box dimensions record (`userData.dimensions`). -/
structure Dims where
  width : ℚ
  height : ℚ
  depth : ℚ
deriving DecidableEq, Repr

/-- A 2D sketch record: used both for live sketches in `sketchesRef` and for
the `sketchData` profile stored on an extruded shape / in the JSON document.
Fields that JavaScript leaves `undefined` are `none`.  The transient
`start`/`end` capture points of a live sketch are not observable (they are
dropped by the serializer and never read again) and are not modelled. -/
structure Sketch where
  type : String
  width : Option ℚ
  height : Option ℚ
  radius : Option ℚ
  center : Option Vec3
deriving DecidableEq, Repr

/-- A live shape of the entity store (`objectsRef.current` entry): the
observable data of a `THREE.Mesh`/`THREE.Group` plus its `userData` fields.
`materialColor` is `none` for a `THREE.Group`, which has no material.  The
derived triangulated mesh / face / edge arrays are rendering data recomputed
from the geometry and are not part of the store model (the picking engine is
modelled separately below). -/
structure Shape where
  type : String
  position : Vec3
  rotation : Vec3
  scale : Vec3
  materialColor : Option Nat
  dimensions : Option Dims
  radius : Option ℚ
  height : Option ℚ
  extrusionHeight : Option ℚ
  sketchData : Option Sketch
deriving DecidableEq, Repr

/-- A serialized object entry of the persisted scene document.  `position`,
`rotation`, `scale` and `material.color` are always written by
`saveSceneToJSON`, so they are plain fields. -/
structure ObjData where
  id : Nat
  type : String
  position : Vec3
  rotation : Vec3
  scale : Vec3
  color : Nat
  dimensions : Option Dims
  radius : Option ℚ
  height : Option ℚ
  extrusionHeight : Option ℚ
  sketchData : Option Sketch
deriving DecidableEq, Repr

/-- A serialized sketch entry of the persisted scene document. -/
structure SketchEntry where
  id : Nat
  record : Sketch
deriving DecidableEq, Repr

/-- The persisted scene document (`{version, objects, sketches}`). -/
structure SceneData where
  version : String
  objects : List ObjData
  sketches : List SketchEntry
deriving DecidableEq, Repr

/-- JavaScript `x || d` for an optional number: `undefined` and `0` are
falsy and fall back to the default. -/
def orQ (o : Option ℚ) (d : ℚ) : ℚ :=
  match o with
  | none => d
  | some x => if x = 0 then d else x

/-! ## Scene codec: `saveSceneToJSON` (ioUtils.jsx lines 9-114) -/

/-- The `sketchData` sub-record written for an extruded object
(ioUtils.jsx lines 57-75).  `width`/`height`/`radius` are copied under an
`!== undefined` guard, i.e. exactly when present; `center` is copied when
present (`center.x || 0` is the identity on rational coordinates). -/
def serializeSketchData (sd : Sketch) : Sketch :=
  { type := sd.type
    width := sd.width
    height := sd.height
    radius := sd.radius
    center := sd.center.map (fun c => ⟨c.x, c.y, c.z⟩) }

/-- Serialize one store object (ioUtils.jsx lines 17-80).  Reading
`obj.material.color.getHex()` throws when the object has no material (e.g. a
`THREE.Group`), modelled by `none`. -/
def serializeObject (i : Nat) (obj : Shape) : Option ObjData :=
  match obj.materialColor with
  | none => none
  | some c =>
    let base : ObjData :=
      { id := i
        type := if obj.type = "" then "unknown" else obj.type
        position := obj.position
        rotation := obj.rotation
        scale := obj.scale
        color := c
        dimensions := none
        radius := none
        height := none
        extrusionHeight := none
        sketchData := none }
    some <|
      if obj.type = "box" then
        { base with dimensions := some (obj.dimensions.getD ⟨1, 1, 1⟩) }
      else if obj.type = "sphere" then
        { base with radius := some (orQ obj.radius (7/10)) }
      else if obj.type = "cylinder" then
        { base with radius := some (orQ obj.radius (1/2))
                    height := some (orQ obj.height 1) }
      else if obj.type = "extruded" then
        { base with extrusionHeight := some (orQ obj.extrusionHeight 2)
                    sketchData := obj.sketchData.map serializeSketchData }
      else base

/-- Serialize the object list; a throw on any entry aborts the whole save
(the `forEach` does not catch). -/
def serializeObjects : Nat → List Shape → Option (List ObjData)
  | _, [] => some []
  | i, s :: rest =>
    match serializeObject i s with
    | none => none
    | some o =>
      match serializeObjects (i + 1) rest with
      | none => none
      | some os => some (o :: os)

/-- Serialize one sketch (ioUtils.jsx lines 83-111): `width`/`height` are
written only for rectangles, `radius` only for circles, `center` when
present; any other kind gets a bare `{id, type}` record. -/
def serializeSketch (i : Nat) (sk : Sketch) : SketchEntry :=
  { id := i
    record :=
      if sk.type = "rectangle" then
        ⟨sk.type, sk.width, sk.height, none, sk.center.map (fun c => ⟨c.x, c.y, c.z⟩)⟩
      else if sk.type = "circle" then
        ⟨sk.type, none, none, sk.radius, sk.center.map (fun c => ⟨c.x, c.y, c.z⟩)⟩
      else
        ⟨sk.type, none, none, none, none⟩ }

/-- Serialize the sketch list (never throws). -/
def serializeSketches : Nat → List Sketch → List SketchEntry
  | _, [] => []
  | i, k :: rest => serializeSketch i k :: serializeSketches (i + 1) rest

/-- `saveSceneToJSON(objects, sketches)` (ioUtils.jsx lines 9-114).
`none` models a thrown exception. -/
def saveSceneToJSON (objects : List Shape) (sketches : List Sketch) :
    Option SceneData :=
  match serializeObjects 0 objects with
  | none => none
  | some os => some ⟨"1.0", os, serializeSketches 0 sketches⟩

/-! ## Scene codec: `loadSceneFromJSON` (ioUtils.jsx lines 116-252) -/

/-- `createBox(width, height, depth)` (shapeUtils.jsx lines 148-165),
restricted to the observable store data. -/
def createBoxS (width height depth : ℚ) : Shape :=
  { type := "box"
    position := ⟨0, 0, 0⟩
    rotation := ⟨0, 0, 0⟩
    scale := ⟨1, 1, 1⟩
    materialColor := some 0x2194ce
    dimensions := some ⟨width, height, depth⟩
    radius := none
    height := none
    extrusionHeight := none
    sketchData := none }

/-- `createSphere(radius)` (shapeUtils.jsx lines 167-184). -/
def createSphereS (radius : ℚ) : Shape :=
  { type := "sphere"
    position := ⟨0, 0, 0⟩
    rotation := ⟨0, 0, 0⟩
    scale := ⟨1, 1, 1⟩
    materialColor := some 0xcc221a
    dimensions := none
    radius := some radius
    height := none
    extrusionHeight := none
    sketchData := none }

/-- `createCylinder(radius, height)` (shapeUtils.jsx lines 186-204). -/
def createCylinderS (radius height : ℚ) : Shape :=
  { type := "cylinder"
    position := ⟨0, 0, 0⟩
    rotation := ⟨0, 0, 0⟩
    scale := ⟨1, 1, 1⟩
    materialColor := some 0x22cc77
    dimensions := none
    radius := some radius
    height := some height
    extrusionHeight := none
    sketchData := none }

/-- The mesh built by `recreateExtrudedShape` (ioUtils.jsx lines 254-289)
for a known profile kind: a fresh mesh at the origin with the green
extrusion material, `userData` retaining height and profile. -/
def mkExtrudedFromDoc (o : ObjData) (sd : Sketch) : Shape :=
  { type := "extruded"
    position := ⟨0, 0, 0⟩
    rotation := ⟨0, 0, 0⟩
    scale := ⟨1, 1, 1⟩
    materialColor := some 0x00aa00
    dimensions := none
    radius := none
    height := none
    extrusionHeight := some (orQ o.extrusionHeight 2)
    sketchData := some sd }

/-- Apply the document transforms to a freshly built shape (ioUtils.jsx
lines 164-184).  In the modelled document `position`/`rotation`/`scale` are
always present; `material.color` is applied only when its hex value is
truthy, i.e. nonzero — a document color of `0` (black) is silently ignored
and the creation-default color is kept. -/
def applyDocTransforms (o : ObjData) (sh : Shape) : Shape :=
  { sh with
    position := o.position
    rotation := o.rotation
    scale := o.scale
    materialColor := if o.color ≠ 0 then some o.color else sh.materialColor }

/-- Build one shape from a document entry (ioUtils.jsx lines 141-191).
`Except.error ()` models a thrown exception aborting the load:
for an `extruded` entry a missing `sketchData` throws on the
`sketchData.type` access, and an unknown profile kind makes
`recreateExtrudedShape` return `null`, on which the subsequent
`updateShapeGeometry(shape)` dereference throws.  `.ok none` models the
unknown-type skip (`console.warn` + `return`). -/
def buildObject (o : ObjData) : Except Unit (Option Shape) :=
  if o.type = "box" then
    let dims := o.dimensions.getD ⟨1, 1, 1⟩
    .ok (some (applyDocTransforms o (createBoxS dims.width dims.height dims.depth)))
  else if o.type = "sphere" then
    .ok (some (applyDocTransforms o (createSphereS (orQ o.radius (7/10)))))
  else if o.type = "cylinder" then
    .ok (some (applyDocTransforms o
      (createCylinderS (orQ o.radius (1/2)) (orQ o.height 1))))
  else if o.type = "extruded" then
    match o.sketchData with
    | none => .error ()
    | some sd =>
      if sd.type = "rectangle" ∨ sd.type = "circle" then
        .ok (some (applyDocTransforms o (mkExtrudedFromDoc o sd)))
      else .error ()
  else .ok none

/-- Load the document's object list (ioUtils.jsx lines 140-192), returning
the shapes pushed so far, the warned unknown `type` values, and whether the
loop ran to completion (`false` = an exception was thrown part-way). -/
def loadObjects : List ObjData → List Shape × List String × Bool
  | [] => ([], [], true)
  | o :: rest =>
    match buildObject o with
    | .error _ => ([], [], false)
    | .ok none =>
      let (shs, ws, k) := loadObjects rest
      (shs, o.type :: ws, k)
    | .ok (some sh) =>
      let (shs, ws, k) := loadObjects rest
      (sh :: shs, ws, k)

/-- Build one live sketch from a document entry (ioUtils.jsx lines
196-218).  For the known kinds the `new THREE.Vector3(sketchData.center.x,
…)` constructor throws when `center` is absent; any other kind is pushed as
a bare `{type}` record with no warning. -/
def buildSketch (e : SketchEntry) : Except Unit Sketch :=
  let sd := e.record
  if sd.type = "rectangle" then
    match sd.center with
    | none => .error ()
    | some c => .ok ⟨"rectangle", sd.width, sd.height, none, some ⟨c.x, c.y, c.z⟩⟩
  else if sd.type = "circle" then
    match sd.center with
    | none => .error ()
    | some c => .ok ⟨"circle", none, none, sd.radius, some ⟨c.x, c.y, c.z⟩⟩
  else .ok ⟨sd.type, none, none, none, none⟩

/-- Load the document's sketch list (ioUtils.jsx lines 195-251). -/
def loadSketches : List SketchEntry → List Sketch × Bool
  | [] => ([], true)
  | e :: rest =>
    match buildSketch e with
    | .error _ => ([], false)
    | .ok sk =>
      let (sks, k) := loadSketches rest
      (sk :: sks, k)

/-- The result of `loadSceneFromJSON`: the store contents after the call
(the refs are cleared at entry and refilled), the unknown-object-type
warnings, and whether the load completed without throwing. -/
structure LoadOutcome where
  objects : List Shape
  sketches : List Sketch
  warnings : List String
  ok : Bool
deriving DecidableEq, Repr

/-- `loadSceneFromJSON(data, …)` (ioUtils.jsx lines 116-252).  The existing
objects and sketches are removed from the refs before any entry is built,
so the outcome never depends on the prior store contents; if building an
object throws, the sketch loop is never reached. -/
def loadSceneFromJSON (d : SceneData) : LoadOutcome :=
  let (objs, ws, ok1) := loadObjects d.objects
  if ok1 then
    let (sks, ok2) := loadSketches d.sketches
    { objects := objs, sketches := sks, warnings := ws, ok := ok2 }
  else
    { objects := objs, sketches := [], warnings := ws, ok := false }

/-- Round-trip of the scene codec: serialize, then deserialize; `none` when
either direction throws. -/
def roundTrip (objects : List Shape) (sketches : List Sketch) :
    Option (List Shape × List Sketch) :=
  match saveSceneToJSON objects sketches with
  | none => none
  | some d =>
    let out := loadSceneFromJSON d
    if out.ok then some (out.objects, out.sketches) else none

/-! ## Editor state and command handlers (ThreeCanvas, part_003) -/

/-- The primary selection entity (`selectedEntityRef` + `selectedTypeRef`):
a whole shape, or a face/edge record whose `parentObject` back-reference is
the shape it was picked on. -/
inductive SelEntity where
  | shape (s : Shape)
  | face (parent : Shape)
  | edge (parent : Shape)
deriving DecidableEq, Repr

/-- The scene-editing state the claims observe: the entity store
(`objectsRef`), the sketch list (`sketchesRef`), the primary selection,
the multi-selection set (`multiSelectedRef`, a `Set` iterated in insertion
order, modelled as a duplicate-free list) and the two history stacks
(stack top at the list head; JavaScript pushes/pops at the array tail).
Snapshots are stored as scene documents: `JSON.stringify`/`JSON.parse`
round-trips the document unchanged, so the string step is dropped. -/
structure EditorState where
  objects : List Shape
  sketches : List Sketch
  selection : Option SelEntity
  multiSel : List Shape
  undoStack : List SceneData
  redoStack : List SceneData
deriving DecidableEq, Repr

/-- The initial empty scene. -/
def initState : EditorState :=
  { objects := [], sketches := [], selection := none, multiSel := [],
    undoStack := [], redoStack := [] }

/-- `snapshotScene` (part_003 lines 214-225): serialize the current scene,
`none` when `saveSceneToJSON` throws (the catch logs and returns `null`). -/
def snapshotScene (st : EditorState) : Option SceneData :=
  saveSceneToJSON st.objects st.sketches

/-- `pushHistory` (part_003 lines 251-258): push the snapshot and clear the
redo stack, but only if the snapshot succeeded. -/
def pushHistory (st : EditorState) : EditorState :=
  match snapshotScene st with
  | some snap => { st with undoStack := snap :: st.undoStack, redoStack := [] }
  | none => st

/-- `restoreSceneFromSnapshot` (part_003 lines 227-249): replace the store
with the loaded snapshot.  The refs are reassigned inside
`loadSceneFromJSON` before anything can throw, so even a failed restore
leaves the partially rebuilt store; the selection is cleared only when the
load ran to completion (the clearing code sits after the load call inside
the `try`). -/
def restoreSceneFromSnapshot (st : EditorState) (snap : SceneData) :
    EditorState :=
  let out := loadSceneFromJSON snap
  { st with
    objects := out.objects
    sketches := out.sketches
    selection := if out.ok then none else st.selection }

/-- `undoHandler` (part_003 lines 1371-1378): pop the undo stack, snapshot
the current scene onto the redo stack (skipped if snapshotting throws), and
restore the popped snapshot. -/
def undoStep (st : EditorState) : EditorState :=
  match st.undoStack with
  | [] => st
  | snap :: rest =>
    let current := snapshotScene st
    let st1 :=
      { st with
        undoStack := rest
        redoStack :=
          match current with
          | some c => c :: st.redoStack
          | none => st.redoStack }
    restoreSceneFromSnapshot st1 snap

/-- `redoHandler` (part_003 lines 1379-1386), the mirror of `undoStep`. -/
def redoStep (st : EditorState) : EditorState :=
  match st.redoStack with
  | [] => st
  | snap :: rest =>
    let current := snapshotScene st
    let st1 :=
      { st with
        redoStack := rest
        undoStack :=
          match current with
          | some c => c :: st.undoStack
          | none => st.undoStack }
    restoreSceneFromSnapshot st1 snap

/-- `createShapeAtPosition` (part_003 lines 693-748): build the default
primitive for the kind, drop it on the ground plane at the click position
with the per-kind resting height, add it to the store and select it (the
multi-selection set is not touched). -/
def createShapeAtPosition (st : EditorState) (ty : String) (pos : Vec3) :
    EditorState :=
  let made : Option (Shape × ℚ) :=
    if ty = "box" then some (createBoxS 1 1 1, 1/2)
    else if ty = "sphere" then some (createSphereS (7/10), 7/10)
    else if ty = "cylinder" then some (createCylinderS (1/2) 1, 1/2)
    else none
  match made with
  | none => st
  | some (sh0, yPos) =>
    let sh := { sh0 with position := ⟨pos.x, yPos, pos.z⟩ }
    { st with objects := st.objects ++ [sh], selection := some (.shape sh) }

/-- The `createShape` command flow (part_003 lines 1353-1356 then 495-506):
the handler pushes history immediately, and the subsequent click places the
shape.  Modelled as the composite command. -/
def createShapeCmd (st : EditorState) (ty : String) (pos : Vec3) :
    EditorState :=
  createShapeAtPosition (pushHistory st) ty pos

/-- Committing a rectangle sketch on pointer-up, `handleSketchEnd`
(part_003 lines 836-889 rectangle branch): history is pushed first; the
sketch is appended only if both side lengths exceed the 0.01 threshold. -/
def handleSketchEndRect (st : EditorState) (dragStart pos : Vec3) :
    EditorState :=
  let st1 := pushHistory st
  let width := |pos.x - dragStart.x|
  let height := |pos.z - dragStart.z|
  if 1/100 < width ∧ 1/100 < height then
    { st1 with
      sketches := st1.sketches ++
        [⟨"rectangle", some width, some height, none,
          some ⟨(dragStart.x + pos.x) / 2, 0, (dragStart.z + pos.z) / 2⟩⟩] }
  else st1

/-- Committing a circle sketch on pointer-up, `handleSketchEnd` (part_003
lines 890-922 circle branch).  The radius `dragStart.distanceTo(pos)` is a
square root; the model takes the already computed radius as input, with the
0.01 threshold applied as in the source. -/
def handleSketchEndCircle (st : EditorState) (dragStart : Vec3) (radius : ℚ) :
    EditorState :=
  let st1 := pushHistory st
  if 1/100 < radius then
    { st1 with
      sketches := st1.sketches ++
        [⟨"circle", none, none, some radius,
          some ⟨dragStart.x, 0, dragStart.z⟩⟩] }
  else st1

/-- The solid built by `handleExtrude` for one sketch (part_003 lines
937-979): a straight sweep of the rectangle or circle profile, positioned
over the sketch center at half height, with the extrusion material and the
consumed sketch retained in `userData`.  `none` models both the
unknown-kind case (the local `shape` stays `undefined`) and a sketch with
no center (the `position.copy(sketch.center)` access throws before the
store is touched); in either case the store mutation block is skipped. -/
def extrudedMesh (sk : Sketch) (height : ℚ) (c : Vec3) : Shape :=
  { type := "extruded"
    position := ⟨c.x, height / 2, c.z⟩
    rotation := ⟨0, 0, 0⟩
    scale := ⟨1, 1, 1⟩
    materialColor := some 0x00aa00
    dimensions := none
    radius := none
    height := none
    extrusionHeight := some height
    sketchData := some sk }

def extrudeShapeOf (sk : Sketch) (height : ℚ) : Option Shape :=
  if sk.type = "rectangle" ∨ sk.type = "circle" then
    match sk.center with
    | none => none
    | some c => some (extrudedMesh sk height c)
  else none

/-- `handleExtrude(sketchIndex, height)` (part_003 lines 930-1018): bail
out on an out-of-range index before touching anything; otherwise push
history, build the swept solid, append it to the store, remove the consumed
sketch with `splice(sketchIndex, 1)`, and select the new shape. -/
def handleExtrude (st : EditorState) (sketchIndex : Int) (height : ℚ) :
    EditorState :=
  if sketchIndex < 0 ∨ (st.sketches.length : Int) ≤ sketchIndex then st
  else
    let st1 := pushHistory st
    match st.sketches.get? sketchIndex.toNat with
    | none => st1
    | some sk =>
      match extrudeShapeOf sk height with
      | none => st1
      | some sh =>
        { st1 with
          objects := st1.objects ++ [sh]
          sketches := st1.sketches.eraseIdx sketchIndex.toNat
          selection := some (.shape sh) }

/-- The outcome of the pick phase of `handleSelection`, fed to the
selection-application phase: the resolved entity, or `none` when the ray
hit nothing. -/
def pickedParent : SelEntity → Shape
  | .shape s => s
  | .face p => p
  | .edge p => p

/-- Absorbing the current primary selection into the multi-selection set
(part_003 lines 629-638, duplicated at lines 1389-1399): the primary is
appended when it is a shape that is a store member and not already in the
set. -/
def absorbPrimary (st : EditorState) : List Shape :=
  match st.selection with
  | some (.shape primary) =>
    if primary ∈ st.objects ∧ primary ∉ st.multiSel then
      st.multiSel ++ [primary]
    else st.multiSel
  | _ => st.multiSel

/-- Toggling a shape in the multi-selection set (part_003 lines 639-645). -/
def toggleMulti (set0 : List Shape) (s : Shape) : List Shape :=
  if s ∈ set0 then set0.filter (fun o => decide (o ≠ s)) else set0 ++ [s]

/-- The selection-application phase of `handleSelection` (part_003 lines
615-681).  In multi-select mode the target is promoted to its owning shape,
the current primary is absorbed into the set when it is a store member not
already present, and the target is toggled; in plain mode the
multi-selection set is cleared and the pick becomes the primary selection.
When the pick resolved nothing, the primary selection is cleared but the
multi-selection set is left as it was (only its highlight visuals are
removed by `clearHighlight`). -/
def handleSelectionApply (st : EditorState) (isMulti : Bool)
    (picked : Option SelEntity) : EditorState :=
  match picked with
  | some sel =>
    if isMulti then
      let shapeToToggle := pickedParent sel
      { st with
        multiSel := toggleMulti (absorbPrimary st) shapeToToggle
        selection := some (.shape shapeToToggle) }
    else
      { st with multiSel := [], selection := some sel }
  | none => { st with selection := none }

/-- The Delete/Backspace branch of `handleKeyDown` (part_003 lines
1252-1270): with a shape as primary selection, push history, filter the
shape out of the store and clear the primary selection.  The
multi-selection set is not touched. -/
def deleteSelected (st : EditorState) : EditorState :=
  match st.selection with
  | some (.shape s) =>
    let st1 := pushHistory st
    { st1 with
      objects := st1.objects.filter (fun o => decide (o ≠ s))
      selection := none }
  | _ => st

/-- The `THREE.Group` node created by `groupSelectedHandler`: kind tag
`group`, no material of its own. -/
def groupShape : Shape :=
  { type := "group"
    position := ⟨0, 0, 0⟩
    rotation := ⟨0, 0, 0⟩
    scale := ⟨1, 1, 1⟩
    materialColor := none
    dimensions := none
    radius := none
    height := none
    extrusionHeight := none
    sketchData := none }

/-- `groupSelectedHandler` (part_003 lines 1387-1432): with fewer than two
set members, the primary shape is added to the set when it is a store
member (this mutation persists even when the handler then bails out); with
two or more, history is pushed, every set member is moved out of the
top-level store into a new group node, the group is appended, the set is
cleared and the group becomes the primary selection. -/
def groupSelectedHandler (st : EditorState) : EditorState :=
  let set0 := if st.multiSel.length < 2 then absorbPrimary st else st.multiSel
  if set0.length < 2 then { st with multiSel := set0 }
  else
    let st1 := pushHistory { st with multiSel := set0 }
    { st1 with
      objects := (st1.objects.filter (fun o => decide (o ∉ set0))) ++ [groupShape]
      multiSel := []
      selection := some (.shape groupShape) }

/-- `importHandler` (part_003 lines 1476-1502) after a successful
`JSON.parse`: `loadSceneFromJSON` replaces the store refs regardless of a
mid-load throw (the catch only logs); the selection is cleared only when
the load completed. -/
def importScene (st : EditorState) (d : SceneData) : EditorState :=
  let out := loadSceneFromJSON d
  { st with
    objects := out.objects
    sketches := out.sketches
    selection := if out.ok then none else st.selection }

/-! ## Picking engine (part_003 lines 486-613)

The ray cast and camera are Three.js library calls; their results enter the
model as inputs: the candidate top-level shape resolved from the nearest
intersection (part_003 lines 518-533), the `faceIndex` of that
intersection, the candidate's world matrix, and the camera's combined
projection matrix (`Vector3.project(camera)` is one homogeneous 4x4
application).  Pixel distances are compared through their squares, which is
equivalent since the square root is monotone on nonnegative rationals
(`d <= 3` becomes `d² <= 9`, `d < best` becomes `d² < best²`). -/

/-- A homogeneous 4x4 matrix, row-major entries. -/
structure Mat4 where
  a11 : ℚ
  a12 : ℚ
  a13 : ℚ
  a14 : ℚ
  a21 : ℚ
  a22 : ℚ
  a23 : ℚ
  a24 : ℚ
  a31 : ℚ
  a32 : ℚ
  a33 : ℚ
  a34 : ℚ
  a41 : ℚ
  a42 : ℚ
  a43 : ℚ
  a44 : ℚ
deriving DecidableEq, Repr

/-- The identity matrix. -/
def idMat4 : Mat4 := ⟨1,0,0,0, 0,1,0,0, 0,0,1,0, 0,0,0,1⟩

/-- `THREE.Vector3.applyMatrix4`: homogeneous application with perspective
divide.  (Rational division by a zero `w` yields `0` in Lean; in the source
a zero `w` only arises for points on the camera plane.) -/
def applyMatrix4 (m : Mat4) (v : Vec3) : Vec3 :=
  let w := m.a41 * v.x + m.a42 * v.y + m.a43 * v.z + m.a44
  ⟨(m.a11 * v.x + m.a12 * v.y + m.a13 * v.z + m.a14) / w,
   (m.a21 * v.x + m.a22 * v.y + m.a23 * v.z + m.a24) / w,
   (m.a31 * v.x + m.a32 * v.y + m.a33 * v.z + m.a34) / w⟩

/-- A deduplicated mesh edge in the shape's local space (`userData.edges`
entry); `stop` is the source's `end` field, renamed because `end` is a Lean
keyword. -/
structure Edge3 where
  start : Vec3
  stop : Vec3
deriving DecidableEq, Repr

/-- A face record derived from one mesh triangle (`userData.faces` entry,
shapeUtils.jsx lines 120-126). -/
structure FaceRec where
  center : Vec3
  normal : Vec3
  v0 : Vec3
  v1 : Vec3
  v2 : Vec3
  area : ℚ
  size : ℚ
deriving DecidableEq, Repr

/-- The pickable data of the candidate shape. -/
structure PickShape where
  faces : List FaceRec
  edges : List Edge3
  worldMatrix : Mat4
deriving DecidableEq, Repr

/-- Squared length of a 3D vector. -/
def lengthSq3 (v : Vec3) : ℚ := v.x * v.x + v.y * v.y + v.z * v.z

/-- 3D vector difference. -/
def subV3 (a b : Vec3) : Vec3 := ⟨a.x - b.x, a.y - b.y, a.z - b.z⟩

/-- 2D vector difference. -/
def subV2 (a b : Vec2) : Vec2 := ⟨a.x - b.x, a.y - b.y⟩

/-- 2D dot product. -/
def dot2 (a b : Vec2) : ℚ := a.x * b.x + a.y * b.y

/-- Squared 2D length. -/
def lengthSq2 (v : Vec2) : ℚ := v.x * v.x + v.y * v.y

/-- Squared distance between two pixel points. -/
def distSq2 (a b : Vec2) : ℚ := lengthSq2 (subV2 a b)

/-- NDC-to-pixel mapping (part_003 lines 571-578):
`((ndc.x + 1) * 0.5 * rect.width, (-ndc.y + 1) * 0.5 * rect.height)`. -/
def ndcToPx (rect : Vec2) (ndc : Vec3) : Vec2 :=
  ⟨(ndc.x + 1) * (1/2) * rect.x, (-ndc.y + 1) * (1/2) * rect.y⟩

/-- Whether the edge survives the degenerate-length filter (part_003 lines
562-566): skipped iff its world-space length is below 0.001, i.e. its
squared length is below 10⁻⁶. -/
def edgeEligible (world : Mat4) (e : Edge3) : Bool :=
  let ws := applyMatrix4 world e.start
  let we := applyMatrix4 world e.stop
  decide (¬ lengthSq3 (subV3 we ws) < 1 / 1000000)

/-- Squared pixel distance from the pointer to the projected edge segment,
clamped to the segment (part_003 lines 568-594). -/
def edgeDistSqPx (world proj : Mat4) (rect mouse : Vec2) (e : Edge3) : ℚ :=
  let startPx := ndcToPx rect (applyMatrix4 proj (applyMatrix4 world e.start))
  let endPx := ndcToPx rect (applyMatrix4 proj (applyMatrix4 world e.stop))
  let ab := subV2 endPx startPx
  let ap := subV2 mouse startPx
  let abLenSq := lengthSq2 ab
  let t0 := if 0 < abLenSq then dot2 ap ab / abLenSq else 0
  let t := max 0 (min 1 t0)
  let closestPx : Vec2 := ⟨startPx.x + ab.x * t, startPx.y + ab.y * t⟩
  distSq2 closestPx mouse

/-- `distancePx < closestEdgeDistance` of the edge scan, on squared
distances; the initial `closestEdgeDistance = Infinity` is the `none`
case. -/
def beatsBest (d : ℚ) : Option (Nat × ℚ) → Bool
  | none => true
  | some (_, bd) => decide (d < bd)

/-- The edge scan of `handleSelection` (part_003 lines 552-607): walk the
candidate's edges keeping the first edge that is within the 3-pixel
threshold and strictly closer than the best so far; `i` is the index of the
head of the remaining list, `best` the `(index, squared distance)` found so
far. -/
def pickEdgesAux (world proj : Mat4) (rect mouse : Vec2) :
    List Edge3 → Nat → Option (Nat × ℚ) → Option (Nat × ℚ)
  | [], _, best => best
  | e :: rest, i, best =>
    let best2 :=
      if edgeEligible world e then
        let d := edgeDistSqPx world proj rect mouse e
        if d ≤ 9 ∧ beatsBest d best = true then some (i, d) else best
      else best
    pickEdgesAux world proj rect mouse rest (i + 1) best2

/-- The result of the pick phase of `handleSelection`. -/
inductive PickResult where
  | face (idx : Nat)
  | edge (idx : Nat)
  | body
  | nothing
deriving DecidableEq, Repr

/-- The pick phase of `handleSelection` (part_003 lines 515-613), strict
priority order: with the Ctrl/Cmd face modifier, the intersected triangle
index selects the candidate's face when in range (edges are never
considered); without it, the closest projected edge within 3 pixels is
selected; otherwise the candidate shape body; with no candidate, nothing. -/
def handleSelectionPick (isFaceSelectionMode : Bool) (cand : Option PickShape)
    (faceIndex : Option Int) (proj : Mat4) (rect mouse : Vec2) : PickResult :=
  match cand with
  | none => .nothing
  | some c =>
    if isFaceSelectionMode then
      match faceIndex with
      | some fi =>
        if 0 ≤ fi ∧ fi < (c.faces.length : Int) then .face fi.toNat else .body
      | none => .body
    else
      match pickEdgesAux c.worldMatrix proj rect mouse c.edges 0 none with
      | some (i, _) => .edge i
      | none => .body

/-! ## Observables and well-formedness predicates -/

/-- The observables of a store entity named by the history claim: kind tag
and transform (position, rotation, scale). -/
def obsShape (s : Shape) : String × Vec3 × Vec3 × Vec3 :=
  (s.type, s.position, s.rotation, s.scale)

/-- Store observables: entity count, kinds and transforms. -/
def obsStore (objs : List Shape) : List (String × Vec3 × Vec3 × Vec3) :=
  objs.map obsShape

/-- The corresponding observables of a document entry. -/
def obsObjData (o : ObjData) : String × Vec3 × Vec3 × Vec3 :=
  (o.type, o.position, o.rotation, o.scale)

/-- Document observables. -/
def obsDoc (d : SceneData) : List (String × Vec3 × Vec3 × Vec3) :=
  d.objects.map obsObjData

/-- The retained profile of an extruded shape names a known sketch kind. -/
def SketchDataTypeOK : Option Sketch → Prop
  | some sd => sd.type = "rectangle" ∨ sd.type = "circle"
  | none => False

instance : (o : Option Sketch) → Decidable (SketchDataTypeOK o)
  | some _ => inferInstanceAs (Decidable (_ ∨ _))
  | none => inferInstanceAs (Decidable False)

/-- A shape the snapshot/restore cycle can carry: it has a material (so
serialization does not throw) and one of the four serializable kind tags,
with an extruded shape carrying a well-kinded profile (so the loader can
rebuild it).  A `group` shape is not good: it has no material. -/
def GoodShape (s : Shape) : Prop :=
  s.materialColor.isSome = true ∧
    (s.type = "box" ∨ s.type = "sphere" ∨ s.type = "cylinder" ∨
      (s.type = "extruded" ∧ SketchDataTypeOK s.sketchData))

/-- A sketch the loader can rebuild: known kinds must carry a center. -/
def GoodSketch (k : Sketch) : Prop :=
  (k.type = "rectangle" ∨ k.type = "circle") → k.center.isSome = true

/-- A store whose snapshot succeeds and reloads completely. -/
def GoodStore (objs : List Shape) (sks : List Sketch) : Prop :=
  (∀ s ∈ objs, GoodShape s) ∧ (∀ k ∈ sks, GoodSketch k)

/-- A document entry the loader rebuilds into a shape without throwing. -/
def GoodObjData (o : ObjData) : Prop :=
  o.type = "box" ∨ o.type = "sphere" ∨ o.type = "cylinder" ∨
    (o.type = "extruded" ∧ SketchDataTypeOK o.sketchData)

/-- A document sketch entry the loader rebuilds without throwing. -/
def GoodSkEntry (e : SketchEntry) : Prop :=
  (e.record.type = "rectangle" ∨ e.record.type = "circle") →
    e.record.center.isSome = true

/-- A document that loads to completion. -/
def GoodDoc (d : SceneData) : Prop :=
  (∀ o ∈ d.objects, GoodObjData o) ∧ (∀ e ∈ d.sketches, GoodSkEntry e)

instance (s : Shape) : Decidable (GoodShape s) := by
  unfold GoodShape; infer_instance

instance (k : Sketch) : Decidable (GoodSketch k) := by
  unfold GoodSketch; infer_instance

instance (objs : List Shape) (sks : List Sketch) :
    Decidable (GoodStore objs sks) := by
  unfold GoodStore; infer_instance

instance (o : ObjData) : Decidable (GoodObjData o) := by
  unfold GoodObjData; infer_instance

instance (e : SketchEntry) : Decidable (GoodSkEntry e) := by
  unfold GoodSkEntry; infer_instance

instance (d : SceneData) : Decidable (GoodDoc d) := by
  unfold GoodDoc; infer_instance

/-! ## Save/load lemmas for good stores -/

lemma serializeObject_good (i : Nat) (s : Shape) (h : GoodShape s) :
    ∃ o, serializeObject i s = some o ∧ GoodObjData o ∧
      obsObjData o = obsShape s := by
  obtain ⟨hm, hks⟩ := h
  cases hmat : s.materialColor with
  | none => rw [hmat] at hm; simp at hm
  | some c =>
    rcases hks with h1 | h1 | h1 | ⟨h1, hsd⟩
    · simp only [serializeObject, hmat, h1]
      norm_num
      exact ⟨by simp [GoodObjData], by simp [obsObjData, obsShape, h1]⟩
    · simp only [serializeObject, hmat, h1]
      norm_num
      exact ⟨by simp [GoodObjData], by simp [obsObjData, obsShape, h1]⟩
    · simp only [serializeObject, hmat, h1]
      norm_num
      exact ⟨by simp [GoodObjData], by simp [obsObjData, obsShape, h1]⟩
    · simp only [serializeObject, hmat, h1]
      norm_num
      refine ⟨?_, by simp [obsObjData, obsShape, h1]⟩
      simp only [GoodObjData]
      norm_num
      cases hsk : s.sketchData with
      | none => rw [hsk] at hsd; exact absurd hsd (by simp [SketchDataTypeOK])
      | some sd =>
        rw [hsk] at hsd
        simpa [SketchDataTypeOK, serializeSketchData] using hsd

lemma applyDocTransforms_materialColor_isSome (o : ObjData) (sh : Shape)
    (h : sh.materialColor.isSome = true) :
    (applyDocTransforms o sh).materialColor.isSome = true := by
  by_cases hc : o.color ≠ 0 <;> simp [applyDocTransforms, hc, h]

lemma buildObject_good (o : ObjData) (h : GoodObjData o) :
    ∃ sh, buildObject o = .ok (some sh) ∧ GoodShape sh ∧
      obsShape sh = obsObjData o := by
  rcases h with h1 | h1 | h1 | ⟨h1, hsd⟩
  · refine ⟨applyDocTransforms o
        (createBoxS (o.dimensions.getD ⟨1, 1, 1⟩).width
          (o.dimensions.getD ⟨1, 1, 1⟩).height
          (o.dimensions.getD ⟨1, 1, 1⟩).depth),
      by simp [buildObject, h1], ?_, ?_⟩
    · exact ⟨applyDocTransforms_materialColor_isSome _ _ (by simp [createBoxS]),
        Or.inl (by simp [applyDocTransforms, createBoxS])⟩
    · simp [obsShape, obsObjData, applyDocTransforms, createBoxS, h1]
  · refine ⟨applyDocTransforms o (createSphereS (orQ o.radius (7/10))),
      by simp [buildObject, h1], ?_, ?_⟩
    · exact ⟨applyDocTransforms_materialColor_isSome _ _ (by simp [createSphereS]),
        Or.inr (Or.inl (by simp [applyDocTransforms, createSphereS]))⟩
    · simp [obsShape, obsObjData, applyDocTransforms, createSphereS, h1]
  · refine ⟨applyDocTransforms o (createCylinderS (orQ o.radius (1/2)) (orQ o.height 1)),
      by simp [buildObject, h1], ?_, ?_⟩
    · exact ⟨applyDocTransforms_materialColor_isSome _ _ (by simp [createCylinderS]),
        Or.inr (Or.inr (Or.inl (by simp [applyDocTransforms, createCylinderS])))⟩
    · simp [obsShape, obsObjData, applyDocTransforms, createCylinderS, h1]
  · cases hsk : o.sketchData with
    | none => rw [hsk] at hsd; exact absurd hsd (by simp [SketchDataTypeOK])
    | some sd =>
      rw [hsk] at hsd
      have hty : sd.type = "rectangle" ∨ sd.type = "circle" := by
        simpa [SketchDataTypeOK] using hsd
      refine ⟨applyDocTransforms o (mkExtrudedFromDoc o sd), ?_, ?_, ?_⟩
      · simp [buildObject, h1, hsk, hty]
      · refine ⟨applyDocTransforms_materialColor_isSome _ _
          (by simp [mkExtrudedFromDoc]), Or.inr (Or.inr (Or.inr ⟨?_, ?_⟩))⟩
        · simp [applyDocTransforms, mkExtrudedFromDoc]
        · simpa [applyDocTransforms, mkExtrudedFromDoc, SketchDataTypeOK] using hty
      · simp [obsShape, obsObjData, applyDocTransforms, mkExtrudedFromDoc, h1]

lemma buildSketch_good (e : SketchEntry) (h : GoodSkEntry e) :
    ∃ k, buildSketch e = .ok k ∧ GoodSketch k := by
  by_cases hr : e.record.type = "rectangle"
  · have hc := h (Or.inl hr)
    cases hcen : e.record.center with
    | none => rw [hcen] at hc; simp at hc
    | some cc =>
      refine ⟨⟨"rectangle", e.record.width, e.record.height, none,
          some ⟨cc.x, cc.y, cc.z⟩⟩,
        by simp [buildSketch, hr, hcen], ?_⟩
      intro _; rfl
  · by_cases hcc : e.record.type = "circle"
    · have hc := h (Or.inr hcc)
      cases hcen : e.record.center with
      | none => rw [hcen] at hc; simp at hc
      | some cc =>
        refine ⟨⟨"circle", none, none, e.record.radius,
            some ⟨cc.x, cc.y, cc.z⟩⟩,
          by simp [buildSketch, hr, hcc, hcen], ?_⟩
        intro _; rfl
    · refine ⟨⟨e.record.type, none, none, none, none⟩,
        by simp [buildSketch, hr, hcc], ?_⟩
      intro habs
      exact absurd habs (not_or.mpr ⟨hr, hcc⟩)

lemma serializeSketch_good (i : Nat) (k : Sketch) (h : GoodSketch k) :
    GoodSkEntry (serializeSketch i k) := by
  unfold GoodSkEntry
  by_cases hr : k.type = "rectangle"
  · have hc := h (Or.inl hr)
    intro _
    cases hcen : k.center with
    | none => rw [hcen] at hc; simp at hc
    | some cc => simp [serializeSketch, hr, hcen]
  · by_cases hcc : k.type = "circle"
    · have hc := h (Or.inr hcc)
      intro _
      cases hcen : k.center with
      | none => rw [hcen] at hc; simp at hc
      | some cc => simp [serializeSketch, hr, hcc, hcen]
    · intro habs
      simp [serializeSketch, hr, hcc] at habs

lemma serializeObjects_good :
    ∀ (objs : List Shape) (i : Nat), (∀ s ∈ objs, GoodShape s) →
    ∃ os, serializeObjects i objs = some os ∧ (∀ o ∈ os, GoodObjData o) ∧
      os.map obsObjData = objs.map obsShape := by
  intro objs
  induction objs with
  | nil => exact fun i _ => ⟨[], rfl, by simp, by simp⟩
  | cons s rest ih =>
    intro i h
    obtain ⟨o, ho, hgo, hobs⟩ :=
      serializeObject_good i s (h s (List.mem_cons_self s rest))
    obtain ⟨os, hos, hgos, hobss⟩ :=
      ih (i + 1) (fun x hx => h x (List.mem_cons_of_mem s hx))
    refine ⟨o :: os, by simp [serializeObjects, ho, hos], ?_, by simp [hobs, hobss]⟩
    intro x hx
    rcases List.mem_cons.mp hx with rfl | hx
    · exact hgo
    · exact hgos x hx

lemma serializeSketches_good :
    ∀ (sks : List Sketch) (i : Nat), (∀ k ∈ sks, GoodSketch k) →
    ∀ e ∈ serializeSketches i sks, GoodSkEntry e := by
  intro sks
  induction sks with
  | nil => intro i _ e he; simp [serializeSketches] at he
  | cons k rest ih =>
    intro i h e he
    rw [serializeSketches] at he
    rcases List.mem_cons.mp he with rfl | he
    · exact serializeSketch_good i k (h k (List.mem_cons_self k rest))
    · exact ih (i + 1) (fun x hx => h x (List.mem_cons_of_mem k hx)) e he

lemma saveScene_good (objs : List Shape) (sks : List Sketch)
    (h : GoodStore objs sks) :
    ∃ d, saveSceneToJSON objs sks = some d ∧ GoodDoc d ∧
      obsDoc d = obsStore objs := by
  obtain ⟨hobjs, hsks⟩ := h
  obtain ⟨os, hos, hgos, hobss⟩ := serializeObjects_good objs 0 hobjs
  refine ⟨⟨"1.0", os, serializeSketches 0 sks⟩, ?_, ⟨hgos, ?_⟩, ?_⟩
  · simp [saveSceneToJSON, hos]
  · exact serializeSketches_good sks 0 hsks
  · simpa [obsDoc, obsStore] using hobss

lemma loadObjects_good :
    ∀ (os : List ObjData), (∀ o ∈ os, GoodObjData o) →
    ∃ shs, loadObjects os = (shs, [], true) ∧ (∀ sh ∈ shs, GoodShape sh) ∧
      shs.map obsShape = os.map obsObjData := by
  intro os
  induction os with
  | nil => exact fun _ => ⟨[], rfl, by simp, by simp⟩
  | cons o rest ih =>
    intro h
    obtain ⟨sh, hsh, hgsh, hobs⟩ :=
      buildObject_good o (h o (List.mem_cons_self o rest))
    obtain ⟨shs, hshs, hgshs, hobss⟩ :=
      ih (fun x hx => h x (List.mem_cons_of_mem o hx))
    refine ⟨sh :: shs, by simp [loadObjects, hsh, hshs], ?_, by simp [hobs, hobss]⟩
    intro x hx
    rcases List.mem_cons.mp hx with rfl | hx
    · exact hgsh
    · exact hgshs x hx

lemma loadSketches_good :
    ∀ (es : List SketchEntry), (∀ e ∈ es, GoodSkEntry e) →
    ∃ sks, loadSketches es = (sks, true) ∧ ∀ k ∈ sks, GoodSketch k := by
  intro es
  induction es with
  | nil => exact fun _ => ⟨[], rfl, by simp⟩
  | cons e rest ih =>
    intro h
    obtain ⟨k, hk, hgk⟩ := buildSketch_good e (h e (List.mem_cons_self e rest))
    obtain ⟨sks, hsks, hgsks⟩ := ih (fun x hx => h x (List.mem_cons_of_mem e hx))
    refine ⟨k :: sks, by simp [loadSketches, hk, hsks], ?_⟩
    intro x hx
    rcases List.mem_cons.mp hx with rfl | hx
    · exact hgk
    · exact hgsks x hx

lemma loadScene_good (d : SceneData) (h : GoodDoc d) :
    (loadSceneFromJSON d).ok = true ∧
    GoodStore (loadSceneFromJSON d).objects (loadSceneFromJSON d).sketches ∧
    obsStore (loadSceneFromJSON d).objects = obsDoc d := by
  obtain ⟨hobjs, hsks⟩ := h
  obtain ⟨shs, hshs, hgshs, hobss⟩ := loadObjects_good d.objects hobjs
  obtain ⟨sks, hsks2, hgsks⟩ := loadSketches_good d.sketches hsks
  have hout : loadSceneFromJSON d =
      { objects := shs, sketches := sks, warnings := [], ok := true } := by
    simp [loadSceneFromJSON, hshs, hsks2]
  rw [hout]
  exact ⟨rfl, ⟨hgshs, hgsks⟩, by simpa [obsStore, obsDoc] using hobss⟩

lemma snapshotScene_good (st : EditorState)
    (h : GoodStore st.objects st.sketches) :
    ∃ d, snapshotScene st = some d ∧ GoodDoc d ∧
      obsDoc d = obsStore st.objects := by
  simpa [snapshotScene] using saveScene_good st.objects st.sketches h

lemma undoStep_eq (st : EditorState) (u : SceneData) (rest : List SceneData)
    (hU : st.undoStack = u :: rest) (d0 : SceneData)
    (hsnap : snapshotScene st = some d0)
    (hok : (loadSceneFromJSON u).ok = true) :
    undoStep st =
      { objects := (loadSceneFromJSON u).objects
        sketches := (loadSceneFromJSON u).sketches
        selection := none
        multiSel := st.multiSel
        undoStack := rest
        redoStack := d0 :: st.redoStack } := by
  simp [undoStep, hU, hsnap, restoreSceneFromSnapshot, hok]

lemma redoStep_eq (st : EditorState) (r : SceneData) (rest : List SceneData)
    (hR : st.redoStack = r :: rest) (d1 : SceneData)
    (hsnap : snapshotScene st = some d1)
    (hok : (loadSceneFromJSON r).ok = true) :
    redoStep st =
      { objects := (loadSceneFromJSON r).objects
        sketches := (loadSceneFromJSON r).sketches
        selection := none
        multiSel := st.multiSel
        undoStack := d1 :: st.undoStack
        redoStack := rest } := by
  simp [redoStep, hR, hsnap, restoreSceneFromSnapshot, hok]

/-- Shape of the editor state after `N` undos followed by `N` redos, on a
good store with good stacked snapshots and enough undo depth: either `N = 0`
and nothing happened, or the store has been replaced by the reload of the
initial snapshot, with the redo stack back to its initial value. -/
theorem undoRedoAux :
    ∀ (N : Nat) (st : EditorState),
    GoodStore st.objects st.sketches →
    (∀ d ∈ st.undoStack, GoodDoc d) →
    N ≤ st.undoStack.length →
    (N = 0 ∧ redoStep^[N] (undoStep^[N] st) = st) ∨
    (1 ≤ N ∧ ∃ d W, snapshotScene st = some d ∧ (∀ w ∈ W, GoodDoc w) ∧
      redoStep^[N] (undoStep^[N] st) =
        { objects := (loadSceneFromJSON d).objects
          sketches := (loadSceneFromJSON d).sketches
          selection := none
          multiSel := st.multiSel
          undoStack := W
          redoStack := st.redoStack }) := by
  intro N
  induction N with
  | zero => intro st _ _ _; exact Or.inl ⟨rfl, by simp⟩
  | succ n ih =>
    intro st hgood hstack hlen
    cases hU : st.undoStack with
    | nil => rw [hU] at hlen; simp at hlen
    | cons u rest =>
      obtain ⟨d0, hsnap, hgd0, hobs0⟩ := snapshotScene_good st hgood
      have hgu : GoodDoc u := hstack u (by rw [hU]; exact List.mem_cons_self u rest)
      obtain ⟨hoku, hgstoreu, hobsu⟩ := loadScene_good u hgu
      have hstep : undoStep st =
          ({ objects := (loadSceneFromJSON u).objects
             sketches := (loadSceneFromJSON u).sketches
             selection := none
             multiSel := st.multiSel
             undoStack := rest
             redoStack := d0 :: st.redoStack } : EditorState) :=
        undoStep_eq st u rest hU d0 hsnap hoku
      have hgood1 : GoodStore (undoStep st).objects (undoStep st).sketches := by
        rw [hstep]; exact hgstoreu
      have hstack1 : ∀ d ∈ (undoStep st).undoStack, GoodDoc d := by
        rw [hstep]
        intro d hd
        exact hstack d (by rw [hU]; exact List.mem_cons_of_mem u hd)
      have hlen1 : n ≤ (undoStep st).undoStack.length := by
        rw [hstep]
        rw [hU] at hlen
        simpa using Nat.succ_le_succ_iff.mp (by simpa using hlen)
      have hiter : undoStep^[n + 1] st = undoStep^[n] (undoStep st) :=
        Function.iterate_succ_apply undoStep n st
      rcases ih (undoStep st) hgood1 hstack1 hlen1 with
        ⟨hn0, hmid⟩ | ⟨hn1, d', W', hsnap', hgW', hmid⟩
      · -- n = 0: one undo, one redo
        subst hn0
        obtain ⟨d1, hsnap1, hgd1, hobs1⟩ :=
          snapshotScene_good (undoStep st) hgood1
        obtain ⟨hok0, hgstore0, hobsd0⟩ := loadScene_good d0 hgd0
        right
        refine ⟨le_refl 1, d0, d1 :: rest, hsnap, ?_, ?_⟩
        · intro w hw
          rcases List.mem_cons.mp hw with rfl | hw
          · exact hgd1
          · exact hstack w (by rw [hU]; exact List.mem_cons_of_mem u hw)
        · have hone : redoStep^[1] (undoStep^[1] st) = redoStep (undoStep st) := by
            simp
          rw [hone]
          have hred := redoStep_eq (undoStep st) d0 st.redoStack
            (by rw [hstep]) d1 hsnap1 hok0
          rw [hred, hstep]
      · -- n ≥ 1: the middle states already have the reloaded shape
        obtain ⟨d'', hsnap'', hgd'', hobs''⟩ :=
          snapshotScene_good (undoStep st) hgood1
        rw [hsnap''] at hsnap'
        injection hsnap' with hdd
        subst hdd
        obtain ⟨hokd', hgstored', hobsd'⟩ := loadScene_good d'' hgd''
        have hgoodM :
            GoodStore (redoStep^[n] (undoStep^[n] (undoStep st))).objects
              (redoStep^[n] (undoStep^[n] (undoStep st))).sketches := by
          rw [hmid]; exact hgstored'
        obtain ⟨d2, hsnap2, hgd2, hobs2⟩ :=
          snapshotScene_good (redoStep^[n] (undoStep^[n] (undoStep st))) hgoodM
        obtain ⟨hok0, hgstore0, hobsd0⟩ := loadScene_good d0 hgd0
        right
        refine ⟨by omega, d0, d2 :: W', hsnap, ?_, ?_⟩
        · intro w hw
          rcases List.mem_cons.mp hw with rfl | hw
          · exact hgd2
          · exact hgW' w hw
        · have hsucc : redoStep^[n + 1] (undoStep^[n + 1] st) =
              redoStep (redoStep^[n] (undoStep^[n] (undoStep st))) := by
            rw [hiter, Function.iterate_succ_apply']
          rw [hsucc]
          have hred := redoStep_eq (redoStep^[n] (undoStep^[n] (undoStep st)))
            d0 st.redoStack (by rw [hmid, hstep]) d2 hsnap2 hok0
          rw [hred, hmid, hstep]

/-- C3 (amended): undo applied `N` times followed by redo `N` times leaves
the entity store observably identical (same entity count, kinds and
transforms), provided the store and every stacked snapshot are
serializable/loadable (in particular, no `group` shapes, whose snapshots
throw) and `N` does not exceed the undo-stack depth (beyond that depth the
extra redos can consume stale pre-existing redo entries). -/
theorem c3_undo_redo_roundtrip (st : EditorState) (N : Nat)
    (hgood : GoodStore st.objects st.sketches)
    (hstack : ∀ d ∈ st.undoStack, GoodDoc d)
    (hN : N ≤ st.undoStack.length) :
    obsStore ((redoStep^[N]) ((undoStep^[N]) st)).objects =
      obsStore st.objects := by
  rcases undoRedoAux N st hgood hstack hN with
    ⟨_, heq⟩ | ⟨_, d, W, hsnap, _, heq⟩
  · rw [heq]
  · rw [heq]
    obtain ⟨d2, hsnap2, hgd2, hobs2⟩ := snapshotScene_good st hgood
    rw [hsnap2] at hsnap
    injection hsnap with hd
    subst hd
    obtain ⟨_, _, hobs⟩ := loadScene_good d2 hgd2
    exact hobs.trans hobs2

/-- The scene reached by creating a box at the origin and undoing the
creation: empty store, empty undo stack, one stale redo entry. -/
def c3CounterState : EditorState :=
  undoStep (createShapeCmd initState "box" ⟨0, 0, 0⟩)

/-- C3 (counterexample): on the reachable state obtained by creating a box
and undoing, one further undo is a no-op (empty undo stack) but the paired
redo pops the stale redo entry and brings the box back, so undo-then-redo
changes the observable store. -/
theorem c3_counterexample :
    obsStore ((redoStep^[1]) ((undoStep^[1]) c3CounterState)).objects ≠
      obsStore c3CounterState.objects := by decide

/-- The scene reached by creating a box at the origin: one box in the
store, one empty-scene snapshot on the undo stack. -/
def c3WitnessState : EditorState := createShapeCmd initState "box" ⟨0, 0, 0⟩

theorem c3_witness :
    GoodStore c3WitnessState.objects c3WitnessState.sketches ∧
    obsStore ((redoStep^[1]) ((undoStep^[1]) c3WitnessState)).objects =
      obsStore c3WitnessState.objects :=
  ⟨by decide,
    c3_undo_redo_roundtrip c3WitnessState 1 (by decide) (by decide) (by decide)⟩

/-- C7 (confirmed): extruding a negative or out-of-range sketch index is a
complete no-op: the guard at the top of `handleExtrude` returns before the
history push or any mutation, so the store, the sketch list, the selection
and both history stacks are unchanged. -/
theorem c7_extrude_invalid_index_noop (st : EditorState) (i : Int) (h : ℚ)
    (hbad : i < 0 ∨ (st.sketches.length : Int) ≤ i) :
    handleExtrude st i h = st := by
  unfold handleExtrude
  rw [if_pos hbad]

/-- A state with one committed sketch, for exercising the guard. -/
def c7State : EditorState :=
  { initState with
    sketches := [⟨"rectangle", some 1, some 2, none, some ⟨0, 0, 0⟩⟩] }

theorem c7_witness :
    ((-1 : Int) < 0 ∨ ((c7State.sketches.length : Int) ≤ -1)) ∧
    handleExtrude c7State (-1) 1 = c7State :=
  ⟨Or.inl (by decide),
    c7_extrude_invalid_index_noop c7State (-1) 1 (Or.inl (by decide))⟩

/-- C8 (confirmed): when taking the scene snapshot throws during
serialization, `pushHistory` pushes nothing and does not clear the redo
stack — neither history stack is modified by the failed push attempt. -/
theorem c8_snapshot_failure_preserves_stacks (st : EditorState)
    (hfail : snapshotScene st = none) :
    (pushHistory st).undoStack = st.undoStack ∧
    (pushHistory st).redoStack = st.redoStack := by
  simp [pushHistory, hfail]

/-- A state whose snapshot throws: the store contains a `group`, which has
no material, so `obj.material.color.getHex()` fails. -/
def c8State : EditorState := { initState with objects := [groupShape] }

theorem c8_witness :
    snapshotScene c8State = none ∧
    (pushHistory c8State).undoStack = c8State.undoStack ∧
    (pushHistory c8State).redoStack = c8State.redoStack :=
  ⟨by decide, c8_snapshot_failure_preserves_stacks c8State (by decide)⟩

/-! ## Exact round-trip of the codec (claim C1) -/

/-- A present, nonzero optional rational (survives the `||` fallbacks). -/
def OptNonzeroQ : Option ℚ → Prop
  | none => False
  | some x => x ≠ 0

instance : (o : Option ℚ) → Decidable (OptNonzeroQ o)
  | none => inferInstanceAs (Decidable False)
  | some _ => inferInstanceAs (Decidable (_ ≠ _))

/-- A present, nonzero optional color (a document color of `0` is falsy and
is dropped by the loader). -/
def OptNonzeroN : Option Nat → Prop
  | none => False
  | some x => x ≠ 0

instance : (o : Option Nat) → Decidable (OptNonzeroN o)
  | none => inferInstanceAs (Decidable False)
  | some _ => inferInstanceAs (Decidable (_ ≠ _))

/-- A shape in the well-formed configuration its creation path produces and
that the codec round-trips exactly: a nonzero material color, one of the
four serializable kinds with its kind parameters present (and nonzero where
the serializer applies a `||` fallback), and no stray fields of the other
kinds. -/
def RoundShape (s : Shape) : Prop :=
  OptNonzeroN s.materialColor ∧
    ((s.type = "box" ∧ s.dimensions.isSome = true ∧ s.radius = none ∧
        s.height = none ∧ s.extrusionHeight = none ∧ s.sketchData = none) ∨
     (s.type = "sphere" ∧ OptNonzeroQ s.radius ∧ s.dimensions = none ∧
        s.height = none ∧ s.extrusionHeight = none ∧ s.sketchData = none) ∨
     (s.type = "cylinder" ∧ OptNonzeroQ s.radius ∧ OptNonzeroQ s.height ∧
        s.dimensions = none ∧ s.extrusionHeight = none ∧ s.sketchData = none) ∨
     (s.type = "extruded" ∧ OptNonzeroQ s.extrusionHeight ∧
        SketchDataTypeOK s.sketchData ∧ s.dimensions = none ∧
        s.radius = none ∧ s.height = none))

instance (s : Shape) : Decidable (RoundShape s) := by
  unfold RoundShape; infer_instance

/-- A committed sketch in the configuration the capture pipeline produces:
a known kind with a center and no stray fields of the other kind. -/
def RoundSketch (k : Sketch) : Prop :=
  (k.type = "rectangle" ∧ k.center.isSome = true ∧ k.radius = none) ∨
  (k.type = "circle" ∧ k.center.isSome = true ∧ k.width = none ∧
    k.height = none)

instance (k : Sketch) : Decidable (RoundSketch k) := by
  unfold RoundSketch; infer_instance

lemma serializeSketchData_id (sd : Sketch) : serializeSketchData sd = sd := by
  obtain ⟨t, w, h, r, c⟩ := sd
  cases c <;> simp [serializeSketchData]

lemma roundTripObject (i : Nat) (s : Shape) (h : RoundShape s) :
    ∃ o, serializeObject i s = some o ∧ buildObject o = .ok (some s) := by
  obtain ⟨sty, spos, srot, sscl, smat, sdim, srad, sht, sex, ssd⟩ := s
  obtain ⟨hm, hks⟩ := h
  cases smat with
  | none => exact absurd hm (by simp [OptNonzeroN])
  | some c =>
  have hc : c ≠ 0 := by simpa [OptNonzeroN] using hm
  rcases hks with ⟨hty, hdim, hrad, hht, hex, hsd⟩ |
    ⟨hty, hrad, hdim, hht, hex, hsd⟩ |
    ⟨hty, hrad, hht, hdim, hex, hsd⟩ |
    ⟨hty, hex, hsd, hdim, hrad, hht⟩ <;>
      simp only at hty hdim hrad hht hex hsd <;> subst hty
  · -- box
    subst hrad; subst hht; subst hex; subst hsd
    cases sdim with
    | none => simp at hdim
    | some D =>
      refine ⟨⟨i, "box", spos, srot, sscl, c, some D, none, none, none, none⟩,
        by simp [serializeObject], ?_⟩
      simp [buildObject, applyDocTransforms, createBoxS, hc]
  · -- sphere
    subst hdim; subst hht; subst hex; subst hsd
    cases srad with
    | none => exact absurd hrad (by simp [OptNonzeroQ])
    | some r =>
      have hr : r ≠ 0 := by simpa [OptNonzeroQ] using hrad
      refine ⟨⟨i, "sphere", spos, srot, sscl, c, none, some r, none, none, none⟩,
        by simp [serializeObject, orQ, hr], ?_⟩
      simp [buildObject, applyDocTransforms, createSphereS, orQ, hc, hr]
  · -- cylinder
    subst hdim; subst hex; subst hsd
    cases srad with
    | none => exact absurd hrad (by simp [OptNonzeroQ])
    | some r =>
    cases sht with
    | none => exact absurd hht (by simp [OptNonzeroQ])
    | some hh =>
      have hr : r ≠ 0 := by simpa [OptNonzeroQ] using hrad
      have hhh : hh ≠ 0 := by simpa [OptNonzeroQ] using hht
      refine ⟨⟨i, "cylinder", spos, srot, sscl, c, none, some r, some hh,
          none, none⟩,
        by simp [serializeObject, orQ, hr, hhh], ?_⟩
      simp [buildObject, applyDocTransforms, createCylinderS, orQ, hc, hr, hhh]
  · -- extruded
    subst hdim; subst hrad; subst hht
    cases sex with
    | none => exact absurd hex (by simp [OptNonzeroQ])
    | some e =>
    cases ssd with
    | none => exact absurd hsd (by simp [SketchDataTypeOK])
    | some sd =>
      have he : e ≠ 0 := by simpa [OptNonzeroQ] using hex
      have hty2 : sd.type = "rectangle" ∨ sd.type = "circle" := by
        simpa [SketchDataTypeOK] using hsd
      refine ⟨⟨i, "extruded", spos, srot, sscl, c, none, none, none, some e,
          some sd⟩, ?_, ?_⟩
      · simp [serializeObject, orQ, he, serializeSketchData_id]
      · simp [buildObject, applyDocTransforms, mkExtrudedFromDoc, orQ, hc, he,
          hty2]

lemma roundTripSketch (i : Nat) (k : Sketch) (h : RoundSketch k) :
    buildSketch (serializeSketch i k) = .ok k := by
  obtain ⟨kty, kw, kh, kr, kc⟩ := k
  rcases h with ⟨hty, hcen, hrad⟩ | ⟨hty, hcen, hw, hh⟩ <;>
    simp only at hty hcen <;> subst hty
  · simp only at hrad; subst hrad
    cases kc with
    | none => simp at hcen
    | some cc => simp [serializeSketch, buildSketch]
  · simp only at hw hh; subst hw; subst hh
    cases kc with
    | none => simp at hcen
    | some cc => simp [serializeSketch, buildSketch]

lemma serializeObjects_roundTrip :
    ∀ (objs : List Shape) (i : Nat), (∀ s ∈ objs, RoundShape s) →
    ∃ os, serializeObjects i objs = some os ∧
      loadObjects os = (objs, [], true) := by
  intro objs
  induction objs with
  | nil => exact fun i _ => ⟨[], rfl, rfl⟩
  | cons s rest ih =>
    intro i h
    obtain ⟨o, ho, hbo⟩ := roundTripObject i s (h s (List.mem_cons_self s rest))
    obtain ⟨os, hos, hlos⟩ :=
      ih (i + 1) (fun x hx => h x (List.mem_cons_of_mem s hx))
    exact ⟨o :: os, by simp [serializeObjects, ho, hos],
      by simp [loadObjects, hbo, hlos]⟩

lemma serializeSketches_roundTrip :
    ∀ (sks : List Sketch) (i : Nat), (∀ k ∈ sks, RoundSketch k) →
    loadSketches (serializeSketches i sks) = (sks, true) := by
  intro sks
  induction sks with
  | nil => exact fun _ _ => rfl
  | cons k rest ih =>
    intro i h
    have hk := roundTripSketch i k (h k (List.mem_cons_self k rest))
    have hrest := ih (i + 1) (fun x hx => h x (List.mem_cons_of_mem k hx))
    simp [serializeSketches, loadSketches, hk, hrest]

/-- C1 (amended): the codec round-trips exactly — kinds, dimensions,
transforms, material color, extrusion profile and height, and both sketch
kinds — for every store whose shapes are box/sphere/cylinder/extruded in
their well-formed configurations and whose sketches are
rectangles/circles with centers.  Stores containing a `group` are excluded:
serializing a group throws (claim C1 counterexample). -/
theorem c1_roundTrip_amended (objs : List Shape) (sks : List Sketch)
    (hobjs : ∀ s ∈ objs, RoundShape s) (hsks : ∀ k ∈ sks, RoundSketch k) :
    roundTrip objs sks = some (objs, sks) := by
  obtain ⟨os, hos, hlos⟩ := serializeObjects_roundTrip objs 0 hobjs
  have hls := serializeSketches_roundTrip sks 0 hsks
  simp [roundTrip, saveSceneToJSON, hos, loadSceneFromJSON, hlos, hls]

/-- C1 (counterexample): a store holding a single `group` — one of the
data model's Shape kinds, explicitly named by the claim — does not
round-trip: `saveSceneToJSON` reads the group's missing material and
throws, so no document is produced at all (and the loader has no `group`
case either). -/
theorem c1_counterexample :
    roundTrip [groupShape] [] ≠ some ([groupShape], []) := by decide

/-- One well-formed shape of each serializable kind and one sketch of each
kind. -/
def c1WitnessObjs : List Shape :=
  [createBoxS 1 1 1, createSphereS 2, createCylinderS 3 4,
   { type := "extruded"
     position := ⟨0, 1, 0⟩
     rotation := ⟨0, 0, 0⟩
     scale := ⟨1, 1, 1⟩
     materialColor := some 0x00aa00
     dimensions := none
     radius := none
     height := none
     extrusionHeight := some 2
     sketchData := some ⟨"circle", none, none, some 1, some ⟨0, 0, 0⟩⟩ }]

/-- One committed sketch of each kind. -/
def c1WitnessSks : List Sketch :=
  [⟨"rectangle", some 2, some 3, none, some ⟨1, 0, 1⟩⟩,
   ⟨"circle", none, none, some 5, some ⟨4, 0, 2⟩⟩]

theorem c1_witness :
    (∀ s ∈ c1WitnessObjs, RoundShape s) ∧
    (∀ k ∈ c1WitnessSks, RoundSketch k) ∧
    roundTrip c1WitnessObjs c1WitnessSks = some (c1WitnessObjs, c1WitnessSks) :=
  ⟨by decide, by decide,
    c1_roundTrip_amended c1WitnessObjs c1WitnessSks (by decide) (by decide)⟩

/-! ## Picking lemmas (claim C2) -/

lemma pickEdgesAux_isSome_mono (world proj : Mat4) (rect mouse : Vec2) :
    ∀ (l : List Edge3) (i : Nat) (best : Option (Nat × ℚ)),
    best.isSome = true →
    (pickEdgesAux world proj rect mouse l i best).isSome = true := by
  intro l
  induction l with
  | nil => intro i best h; simpa [pickEdgesAux] using h
  | cons e rest ih =>
    intro i best h
    rw [pickEdgesAux]
    apply ih
    by_cases he : edgeEligible world e = true
    · simp only [he, if_true]
      split
      · rfl
      · exact h
    · simp only [Bool.not_eq_true] at he
      simp only [he, Bool.false_eq_true, if_false]
      exact h

lemma pickEdgesAux_some_of_exists (world proj : Mat4) (rect mouse : Vec2) :
    ∀ (l : List Edge3) (i0 : Nat) (best : Option (Nat × ℚ)),
    (∃ e ∈ l, edgeEligible world e = true ∧
      edgeDistSqPx world proj rect mouse e ≤ 9) →
    (pickEdgesAux world proj rect mouse l i0 best).isSome = true := by
  intro l
  induction l with
  | nil => intro i0 best h; simp at h
  | cons e rest ih =>
    intro i0 best hex
    obtain ⟨e2, he2, hel, hd⟩ := hex
    rcases List.mem_cons.mp he2 with rfl | he2
    · rw [pickEdgesAux]
      apply pickEdgesAux_isSome_mono
      simp only [hel, if_true]
      split
      · rfl
      · rename_i hcond
        rw [not_and_or] at hcond
        rcases hcond with hcond | hcond
        · exact absurd hd hcond
        · cases best with
          | none => simp [beatsBest] at hcond
          | some p => rfl
    · rw [pickEdgesAux]
      exact ih (i0 + 1) _ ⟨e2, he2, hel, hd⟩

lemma pickEdgesAux_some_spec (world proj : Mat4) (rect mouse : Vec2) :
    ∀ (l : List Edge3) (i0 : Nat) (best : Option (Nat × ℚ)) (i : Nat) (d : ℚ),
    (∀ k bd, best = some (k, bd) → bd ≤ 9) →
    pickEdgesAux world proj rect mouse l i0 best = some (i, d) →
    d ≤ 9 ∧
    (∀ k bd, best = some (k, bd) → d ≤ bd) ∧
    (∀ e ∈ l, edgeEligible world e = true →
      d ≤ edgeDistSqPx world proj rect mouse e) ∧
    (best = some (i, d) ∨ ∃ e, l.get? (i - i0) = some e ∧ i0 ≤ i ∧
      edgeEligible world e = true ∧
      d = edgeDistSqPx world proj rect mouse e) := by
  intro l
  induction l with
  | nil =>
    intro i0 best i d hbest9 hres
    rw [pickEdgesAux] at hres
    subst hres
    exact ⟨hbest9 i d rfl, fun k bd hkb => by injection hkb with h; simp_all,
      fun e he => absurd he (List.not_mem_nil e), Or.inl rfl⟩
  | cons e rest ih =>
    intro i0 best i d hbest9 hres
    rw [pickEdgesAux] at hres
    by_cases he : edgeEligible world e = true
    · simp only [he, if_true] at hres
      by_cases hcond : edgeDistSqPx world proj rect mouse e ≤ 9 ∧
          beatsBest (edgeDistSqPx world proj rect mouse e) best = true
      · -- the head becomes the new best
        rw [if_pos hcond] at hres
        obtain ⟨hd9, hbeats⟩ := hcond
        obtain ⟨h9, hbb, hmin, hdisj⟩ := ih (i0 + 1)
          (some (i0, edgeDistSqPx world proj rect mouse e)) i d
          (fun k bd hkb => by injection hkb with h; simp_all) hres
        have hdD : d ≤ edgeDistSqPx world proj rect mouse e := hbb _ _ rfl
        refine ⟨h9, ?_, ?_, ?_⟩
        · intro k bd hkb
          rw [hkb] at hbeats
          simp only [beatsBest, decide_eq_true_eq] at hbeats
          exact le_of_lt (lt_of_le_of_lt hdD hbeats)
        · intro e2 he2
          rcases List.mem_cons.mp he2 with rfl | he2
          · intro _; exact hdD
          · exact hmin e2 he2
        · rcases hdisj with heq | ⟨e2, hget, hle, hel2, hdeq⟩
          · injection heq with h
            injection h with h1 h2
            subst h1; subst h2
            exact Or.inr ⟨e, by simp, le_refl i0, he, rfl⟩
          · refine Or.inr ⟨e2, ?_, le_trans (Nat.le_succ i0) hle, hel2, hdeq⟩
            have hsub : i - i0 = (i - (i0 + 1)) + 1 := by omega
            rw [hsub, List.get?_cons_succ]
            exact hget
      · rw [if_neg hcond] at hres
        obtain ⟨h9, hbb, hmin, hdisj⟩ := ih (i0 + 1) best i d hbest9 hres
        rw [not_and_or] at hcond
        refine ⟨h9, hbb, ?_, ?_⟩
        · intro e2 he2
          rcases List.mem_cons.mp he2 with rfl | he2
          · intro _
            rcases hcond with hcond | hcond
            · exact le_trans h9 (le_of_lt (lt_of_not_le hcond))
            · cases hbm : best with
              | none => rw [hbm] at hcond; simp [beatsBest] at hcond
              | some p =>
                obtain ⟨k0, bd0⟩ := p
                rw [hbm] at hcond
                simp only [beatsBest, decide_eq_true_eq] at hcond
                exact le_trans (hbb k0 bd0 hbm) (le_of_not_lt hcond)
          · exact hmin e2 he2
        · rcases hdisj with heq | ⟨e2, hget, hle, hel2, hdeq⟩
          · exact Or.inl heq
          · refine Or.inr ⟨e2, ?_, le_trans (Nat.le_succ i0) hle, hel2, hdeq⟩
            have hsub : i - i0 = (i - (i0 + 1)) + 1 := by omega
            rw [hsub, List.get?_cons_succ]
            exact hget
    · simp only [Bool.not_eq_true] at he
      simp only [he, Bool.false_eq_true, if_false] at hres
      obtain ⟨h9, hbb, hmin, hdisj⟩ := ih (i0 + 1) best i d hbest9 hres
      refine ⟨h9, hbb, ?_, ?_⟩
      · intro e2 he2
        rcases List.mem_cons.mp he2 with rfl | he2
        · intro hel2; rw [he] at hel2; exact absurd hel2 (by simp)
        · exact hmin e2 he2
      · rcases hdisj with heq | ⟨e2, hget, hle, hel2, hdeq⟩
        · exact Or.inl heq
        · refine Or.inr ⟨e2, ?_, le_trans (Nat.le_succ i0) hle, hel2, hdeq⟩
          have hsub : i - i0 = (i - (i0 + 1)) + 1 := by omega
          rw [hsub, List.get?_cons_succ]
          exact hget

/-- C2 (confirmed): on a ray whose nearest intersection resolves a
candidate shape with a valid intersected-triangle index, and some
(non-degenerate) edge of that shape projecting within 3 pixels of the
pointer: the plain click resolves to an edge at minimum projected pixel
distance among the shape's pickable edges (distances compared through
their squares, as the square root is monotone), while the ctrl/cmd click
resolves to the face at the intersected triangle index — and in
particular never to an edge. -/
theorem c2_picking_priority (c : PickShape) (fi : Int) (proj : Mat4)
    (rect mouse : Vec2)
    (hfi0 : 0 ≤ fi) (hfil : fi < (c.faces.length : Int))
    (e0 : Edge3) (he0 : e0 ∈ c.edges)
    (helig : edgeEligible c.worldMatrix e0 = true)
    (hnear : edgeDistSqPx c.worldMatrix proj rect mouse e0 ≤ 9) :
    (∃ i e, c.edges.get? i = some e ∧
      handleSelectionPick false (some c) (some fi) proj rect mouse = .edge i ∧
      edgeEligible c.worldMatrix e = true ∧
      edgeDistSqPx c.worldMatrix proj rect mouse e ≤ 9 ∧
      ∀ e2 ∈ c.edges, edgeEligible c.worldMatrix e2 = true →
        edgeDistSqPx c.worldMatrix proj rect mouse e ≤
          edgeDistSqPx c.worldMatrix proj rect mouse e2) ∧
    handleSelectionPick true (some c) (some fi) proj rect mouse =
      .face fi.toNat := by
  constructor
  · have hsome : (pickEdgesAux c.worldMatrix proj rect mouse c.edges 0
        none).isSome = true :=
      pickEdgesAux_some_of_exists c.worldMatrix proj rect mouse c.edges 0 none
        ⟨e0, he0, helig, hnear⟩
    obtain ⟨p, hp⟩ := Option.isSome_iff_exists.mp hsome
    obtain ⟨i, d⟩ := p
    obtain ⟨h9, _, hmin, hdisj⟩ := pickEdgesAux_some_spec c.worldMatrix proj
      rect mouse c.edges 0 none i d (by intro k bd h; cases h) hp
    rcases hdisj with heq | ⟨e, hget, _, hel, hdeq⟩
    · cases heq
    · refine ⟨i, e, by simpa using hget, ?_, hel, by rw [← hdeq]; exact h9, ?_⟩
      · simp only [handleSelectionPick, Bool.false_eq_true, if_false]
        rw [hp]
      · intro e2 he2 hel2
        rw [← hdeq]
        exact hmin e2 he2 hel2
  · simp only [handleSelectionPick, if_true]
    rw [if_pos ⟨hfi0, hfil⟩]

/-- A concrete pick scene: one triangle face, one unit edge along the x
axis, identity world and camera matrices, a 2x2 pixel viewport, the
pointer on the projected edge start. -/
def c2Shape : PickShape :=
  { faces := [⟨⟨0, 0, 0⟩, ⟨0, 1, 0⟩, ⟨0, 0, 0⟩, ⟨1, 0, 0⟩, ⟨0, 0, 1⟩, 1, 1⟩]
    edges := [⟨⟨0, 0, 0⟩, ⟨1, 0, 0⟩⟩]
    worldMatrix := idMat4 }

theorem c2_witness :
    (0 ≤ (0 : Int)) ∧ ((0 : Int) < (c2Shape.faces.length : Int)) ∧
    (⟨⟨0, 0, 0⟩, ⟨1, 0, 0⟩⟩ : Edge3) ∈ c2Shape.edges ∧
    edgeEligible c2Shape.worldMatrix ⟨⟨0, 0, 0⟩, ⟨1, 0, 0⟩⟩ = true ∧
    edgeDistSqPx c2Shape.worldMatrix idMat4 ⟨2, 2⟩ ⟨1, 1⟩
      ⟨⟨0, 0, 0⟩, ⟨1, 0, 0⟩⟩ ≤ 9 ∧
    ((∃ i e, c2Shape.edges.get? i = some e ∧
      handleSelectionPick false (some c2Shape) (some 0) idMat4 ⟨2, 2⟩ ⟨1, 1⟩ =
        .edge i ∧
      edgeEligible c2Shape.worldMatrix e = true ∧
      edgeDistSqPx c2Shape.worldMatrix idMat4 ⟨2, 2⟩ ⟨1, 1⟩ e ≤ 9 ∧
      ∀ e2 ∈ c2Shape.edges, edgeEligible c2Shape.worldMatrix e2 = true →
        edgeDistSqPx c2Shape.worldMatrix idMat4 ⟨2, 2⟩ ⟨1, 1⟩ e ≤
          edgeDistSqPx c2Shape.worldMatrix idMat4 ⟨2, 2⟩ ⟨1, 1⟩ e2) ∧
    handleSelectionPick true (some c2Shape) (some 0) idMat4 ⟨2, 2⟩ ⟨1, 1⟩ =
      .face (0 : Int).toNat) :=
  ⟨by decide, by decide, by decide,
    by norm_num [edgeEligible, applyMatrix4, idMat4, lengthSq3, subV3, c2Shape],
    by norm_num [edgeDistSqPx, ndcToPx, applyMatrix4, idMat4, subV2, dot2,
      lengthSq2, distSq2, c2Shape, min_def, max_def],
    c2_picking_priority c2Shape 0 idMat4 ⟨2, 2⟩ ⟨1, 1⟩ (by decide) (by decide)
      ⟨⟨0, 0, 0⟩, ⟨1, 0, 0⟩⟩ (by decide)
      (by norm_num [edgeEligible, applyMatrix4, idMat4, lengthSq3, subV3,
        c2Shape])
      (by norm_num [edgeDistSqPx, ndcToPx, applyMatrix4, idMat4, subV2, dot2,
        lengthSq2, distSq2, c2Shape, min_def, max_def])⟩

/-! ## Multi-selection claims (C4, C5) -/

lemma absorbPrimary_sub (st : EditorState) :
    ∀ y ∈ absorbPrimary st, y ∈ st.multiSel ∨ y ∈ st.objects := by
  intro y hy
  unfold absorbPrimary at hy
  split at hy
  · split at hy
    · rcases List.mem_append.mp hy with h | h
      · exact Or.inl h
      · rename_i primary _ hcond
        simp only [List.mem_singleton] at h
        subst h
        exact Or.inr hcond.1
    · exact Or.inl hy
  · exact Or.inl hy

lemma toggleMulti_sub (set0 : List Shape) (s : Shape) :
    ∀ y ∈ toggleMulti set0 s, y ∈ set0 ∨ y = s := by
  intro y hy
  unfold toggleMulti at hy
  split at hy
  · exact Or.inl (List.mem_of_mem_filter hy)
  · rcases List.mem_append.mp hy with h | h
    · exact Or.inl h
    · simp only [List.mem_singleton] at h
      exact Or.inr h

/-- C4 (amended): the multi-selection set only ever gains current store
members — an applied pick in multi-select mode inserts only the promoted
pick target (a store member) or the absorbed primary (inserted only after
an `objectsRef.current.includes` check) — and `groupSelected` empties the
set; however, deleting a shape does not remove it from the set (see the
counterexample). -/
theorem c4_multiselection_amended (st : EditorState) :
    (∀ (isMulti : Bool) (sel : SelEntity) (x : Shape),
      pickedParent sel ∈ st.objects →
      x ∈ (handleSelectionApply st isMulti (some sel)).multiSel →
      x ∈ st.multiSel ∨ x ∈ st.objects) ∧
    (2 ≤ st.multiSel.length → (groupSelectedHandler st).multiSel = []) := by
  constructor
  · intro isMulti sel x hsel hx
    cases isMulti with
    | false => simp [handleSelectionApply] at hx
    | true =>
      simp only [handleSelectionApply, if_true] at hx
      rcases toggleMulti_sub (absorbPrimary st) (pickedParent sel) x hx with
        h | h
      · exact absorbPrimary_sub st x h
      · subst h
        exact Or.inr hsel
  · intro h2
    have hnot : ¬ st.multiSel.length < 2 := Nat.not_lt.mpr h2
    simp only [groupSelectedHandler, hnot, if_false]

/-- Two distinct boxes (distinct positions stand in for distinct JS object
identities). -/
def boxA : Shape := { createBoxS 1 1 1 with position := ⟨0, 1, 0⟩ }

def boxB : Shape := { createBoxS 1 1 1 with position := ⟨3, 1, 2⟩ }

/-- Two boxes in the store, the second one the primary selection (the state
after creating both and clicking the second). -/
def c4Base : EditorState :=
  { initState with objects := [boxA, boxB], selection := some (.shape boxB) }

/-- … then shift-clicking the first box: the multi-selection set holds both
boxes (the primary was absorbed, the target toggled in) and the first box
is the new primary. -/
def c4State : EditorState := handleSelectionApply c4Base true (some (.shape boxA))

/-- C4 (counterexample): pressing Delete on this state removes the primary
shape from the entity store but leaves it in the multi-selection set — the
claimed invariant `multi-selection ⊆ store` is broken by delete
(`handleKeyDown` filters `objectsRef` but never touches
`multiSelectedRef`). -/
theorem c4_counterexample :
    boxA ∈ (deleteSelected c4State).multiSel ∧
    boxA ∉ (deleteSelected c4State).objects := by decide

theorem c4_witness :
    (boxA ∈ c4Base.multiSel ∨ boxA ∈ c4Base.objects) ∧
    (groupSelectedHandler c4State).multiSel = [] :=
  ⟨(c4_multiselection_amended c4Base).1 true (.shape boxA) boxA (by decide)
      (by decide),
    (c4_multiselection_amended c4State).2 (by decide)⟩

/-- C5 (amended): a plain (shift-free) click that resolves a shape, face
or edge clears the multi-selection set; but a plain click that hits
nothing clears only the primary selection and leaves the multi-selection
set unchanged. -/
theorem c5_plain_click_clears_multiselection (st : EditorState)
    (sel : SelEntity) :
    (handleSelectionApply st false (some sel)).multiSel = [] ∧
    (handleSelectionApply st false none).multiSel = st.multiSel ∧
    (handleSelectionApply st false none).selection = none :=
  ⟨rfl, rfl, rfl⟩

/-- C5 (counterexample): on a state with a nonempty multi-selection, a
plain click that hits nothing clears the primary selection, yet the
multi-selection set is not empty afterwards — the miss branch of
`handleSelection` never touches `multiSelectedRef`. -/
theorem c5_counterexample :
    (handleSelectionApply c4State false none).selection = none ∧
    (handleSelectionApply c4State false none).multiSel ≠ [] := by decide

/-! ## Extrusion claim (C6) -/

lemma pushHistory_objects (st : EditorState) :
    (pushHistory st).objects = st.objects := by
  unfold pushHistory
  cases snapshotScene st <;> rfl

lemma pushHistory_sketches (st : EditorState) :
    (pushHistory st).sketches = st.sketches := by
  unfold pushHistory
  cases snapshotScene st <;> rfl

lemma pushHistory_selection (st : EditorState) :
    (pushHistory st).selection = st.selection := by
  unfold pushHistory
  cases snapshotScene st <;> rfl

lemma pushHistory_multiSel (st : EditorState) :
    (pushHistory st).multiSel = st.multiSel := by
  unfold pushHistory
  cases snapshotScene st <;> rfl

/-- C6 (amended): extruding a committed rectangle/circle sketch at a valid
index removes exactly the consumed entry from the sketch list (the list
becomes the original with index `i` spliced out, so the length decreases by
exactly one — a second sketch with an equal profile, if present, remains),
appends exactly one new shape whose kind tag is `extruded` with the source
sketch data and the height retained, and makes that shape the primary
selection. -/
theorem c6_extrude_spec (st : EditorState) (i : Nat) (h : ℚ)
    (hi : i < st.sketches.length)
    (hty : (st.sketches.get ⟨i, hi⟩).type = "rectangle" ∨
      (st.sketches.get ⟨i, hi⟩).type = "circle")
    (hc : (st.sketches.get ⟨i, hi⟩).center.isSome = true)
    (_hh : 0 < h) :
    (handleExtrude st (↑i) h).sketches = st.sketches.eraseIdx i ∧
    (handleExtrude st (↑i) h).sketches.length + 1 = st.sketches.length ∧
    ∃ sh, (handleExtrude st (↑i) h).objects = st.objects ++ [sh] ∧
      sh.type = "extruded" ∧ sh.extrusionHeight = some h ∧
      sh.sketchData = some (st.sketches.get ⟨i, hi⟩) ∧
      (handleExtrude st (↑i) h).selection = some (.shape sh) := by
  have hguard : ¬ ((↑i : Int) < 0 ∨ (st.sketches.length : Int) ≤ ↑i) := by
    push_neg
    constructor
    · exact Int.ofNat_nonneg i
    · exact_mod_cast hi
  have htn : (↑i : Int).toNat = i := Int.toNat_natCast i
  have hget : st.sketches.get? i = some (st.sketches.get ⟨i, hi⟩) :=
    List.get?_eq_get hi
  cases hcen : (st.sketches.get ⟨i, hi⟩).center with
  | none => rw [hcen] at hc; simp at hc
  | some cc =>
    have hex : extrudeShapeOf (st.sketches.get ⟨i, hi⟩) h =
        some (extrudedMesh (st.sketches.get ⟨i, hi⟩) h cc) := by
      unfold extrudeShapeOf
      rw [if_pos hty, hcen]
    have hstep : handleExtrude st (↑i) h = EditorState.mk
        (st.objects ++ [extrudedMesh (st.sketches.get ⟨i, hi⟩) h cc])
        (st.sketches.eraseIdx i)
        (some (.shape (extrudedMesh (st.sketches.get ⟨i, hi⟩) h cc)))
        st.multiSel (pushHistory st).undoStack (pushHistory st).redoStack := by
      unfold handleExtrude
      rw [if_neg hguard, htn, hget]
      dsimp only
      rw [hex]
      dsimp only
      rw [pushHistory_sketches, pushHistory_objects, pushHistory_multiSel]
    rw [hstep]
    have hlen := List.length_eraseIdx (l := st.sketches) (i := i)
    rw [if_pos hi] at hlen
    refine ⟨rfl, ?_, extrudedMesh (st.sketches.get ⟨i, hi⟩) h cc, rfl, rfl,
      rfl, rfl, rfl⟩
    show (st.sketches.eraseIdx i).length + 1 = st.sketches.length
    omega

/-- A committed rectangle sketch. -/
def c6Sketch : Sketch := ⟨"rectangle", some 1, some 2, none, some ⟨0, 0, 0⟩⟩

/-- A state with two committed sketches of identical profile (the user
drew the same rectangle twice). -/
def c6State : EditorState := { initState with sketches := [c6Sketch, c6Sketch] }

/-- C6 (counterexample): extruding index 0 of two identical sketches
shrinks the list by exactly one, but the remaining list still contains a
sketch matching the consumed profile — the splice removes one entry, not
every profile match. -/
theorem c6_counterexample :
    (handleExtrude c6State 0 1).sketches.length + 1 =
      c6State.sketches.length ∧
    c6Sketch ∈ (handleExtrude c6State 0 1).sketches := by decide

/-- A state with one committed circle sketch. -/
def c6WitState : EditorState :=
  { initState with sketches := [⟨"circle", none, none, some 2, some ⟨1, 0, 1⟩⟩] }

theorem c6_witness :
    (handleExtrude c6WitState 0 2).sketches =
      c6WitState.sketches.eraseIdx 0 ∧
    (handleExtrude c6WitState 0 2).sketches.length + 1 =
      c6WitState.sketches.length ∧
    ∃ sh, (handleExtrude c6WitState 0 2).objects =
        c6WitState.objects ++ [sh] ∧
      sh.type = "extruded" ∧ sh.extrusionHeight = some 2 ∧
      sh.sketchData = some (c6WitState.sketches.get ⟨0, by decide⟩) ∧
      (handleExtrude c6WitState 0 2).selection = some (.shape sh) :=
  c6_extrude_spec c6WitState 0 2 (by decide) (by decide) (by decide)
    (by norm_num)

/-! ## Import error handling (C9, C10) -/

/-- An object entry whose `type` matches none of the loader's cases. -/
def unknownObjType (o : ObjData) : Prop :=
  ¬ (o.type = "box" ∨ o.type = "sphere" ∨ o.type = "cylinder" ∨
     o.type = "extruded")

instance (o : ObjData) : Decidable (unknownObjType o) := by
  unfold unknownObjType; infer_instance

/-- The loader builds this entry without throwing (it yields a shape or a
warned skip). -/
def buildOk (o : ObjData) : Prop :=
  match buildObject o with
  | .ok _ => True
  | .error _ => False

instance (o : ObjData) : Decidable (buildOk o) := by
  unfold buildOk
  cases buildObject o
  · exact inferInstanceAs (Decidable False)
  · exact inferInstanceAs (Decidable True)

/-- The loader builds this sketch entry without throwing. -/
def buildSketchOk (e : SketchEntry) : Prop :=
  match buildSketch e with
  | .ok _ => True
  | .error _ => False

instance (e : SketchEntry) : Decidable (buildSketchOk e) := by
  unfold buildSketchOk
  cases buildSketch e
  · exact inferInstanceAs (Decidable False)
  · exact inferInstanceAs (Decidable True)

lemma buildObject_skip_iff (o : ObjData) :
    buildObject o = .ok none ↔ unknownObjType o := by
  constructor
  · intro h
    unfold unknownObjType
    rintro (h1 | h1 | h1 | h1)
    · simp [buildObject, h1] at h
    · simp [buildObject, h1] at h
    · simp [buildObject, h1] at h
    · cases hsd : o.sketchData with
      | none => simp [buildObject, h1, hsd] at h
      | some sd =>
        by_cases hty : sd.type = "rectangle" ∨ sd.type = "circle"
        · simp [buildObject, h1, hsd, hty] at h
        · simp [buildObject, h1, hsd, hty] at h
  · intro h
    unfold unknownObjType at h
    push_neg at h
    obtain ⟨h1, h2, h3, h4⟩ := h
    simp [buildObject, h1, h2, h3, h4]

lemma loadObjects_total :
    ∀ (os : List ObjData), (∀ o ∈ os, buildOk o) →
    (loadObjects os).2.2 = true ∧
    (loadObjects os).1.length =
      (os.filter (fun o => ! decide (unknownObjType o))).length ∧
    (loadObjects os).2.1 =
      (os.filter (fun o => decide (unknownObjType o))).map (·.type) := by
  intro os
  induction os with
  | nil => exact fun _ => ⟨rfl, rfl, rfl⟩
  | cons o rest ih =>
    intro h
    obtain ⟨hok, hlen, hwarn⟩ := ih (fun x hx => h x (List.mem_cons_of_mem o hx))
    have hbo := h o (List.mem_cons_self o rest)
    unfold buildOk at hbo
    cases hb : buildObject o with
    | error e => rw [hb] at hbo; exact absurd hbo (by simp)
    | ok r =>
      cases r with
      | none =>
        have hunk : unknownObjType o := (buildObject_skip_iff o).mp hb
        refine ⟨?_, ?_, ?_⟩ <;>
          simp [loadObjects, hb, hok, hlen, hwarn, hunk]
      | some sh =>
        have hknown : ¬ unknownObjType o := by
          intro hunk
          rw [(buildObject_skip_iff o).mpr hunk] at hb
          cases hb
        refine ⟨?_, ?_, ?_⟩ <;>
          simp [loadObjects, hb, hok, hlen, hwarn, hknown]

lemma loadSketches_total :
    ∀ (es : List SketchEntry), (∀ e ∈ es, buildSketchOk e) →
    (loadSketches es).2 = true ∧ (loadSketches es).1.length = es.length := by
  intro es
  induction es with
  | nil => exact fun _ => ⟨rfl, rfl⟩
  | cons e rest ih =>
    intro h
    obtain ⟨hok, hlen⟩ := ih (fun x hx => h x (List.mem_cons_of_mem e hx))
    have hbe := h e (List.mem_cons_self e rest)
    unfold buildSketchOk at hbe
    cases hb : buildSketch e with
    | error err => rw [hb] at hbe; exact absurd hbe (by simp)
    | ok k => simp [loadSketches, hb, hok, hlen]

/-- C9 (amended): when every entry of the document is either buildable or
of an unknown kind (so that nothing throws), the import completes — it is
not fatal; each unknown-typed *object* entry is skipped with a
`console.warn` of its type, the other object entries all load, and every
*sketch* entry — including unknown-typed ones, which the sketch loop does
NOT skip and does not warn about — produces exactly one sketch record. -/
theorem c9_unknown_type_handling (d : SceneData)
    (hobj : ∀ o ∈ d.objects, buildOk o)
    (hsk : ∀ e ∈ d.sketches, buildSketchOk e) :
    (loadSceneFromJSON d).ok = true ∧
    (loadSceneFromJSON d).objects.length =
      (d.objects.filter (fun o => ! decide (unknownObjType o))).length ∧
    (loadSceneFromJSON d).warnings =
      (d.objects.filter (fun o => decide (unknownObjType o))).map (·.type) ∧
    (loadSceneFromJSON d).sketches.length = d.sketches.length := by
  obtain ⟨hok1, hlen1, hwarn⟩ := loadObjects_total d.objects hobj
  obtain ⟨hok2, hlen2⟩ := loadSketches_total d.sketches hsk
  unfold loadSceneFromJSON
  rcases hlo : loadObjects d.objects with ⟨shs, ws, k1⟩
  rw [hlo] at hok1 hlen1 hwarn
  simp only at hok1 hlen1 hwarn
  subst hok1
  rcases hls : loadSketches d.sketches with ⟨sks, k2⟩
  rw [hls] at hok2 hlen2
  simp only at hok2 hlen2
  subst hok2
  simp [hlen1, hwarn, hlen2]

/-- A document whose only entry is a sketch of unknown kind. -/
def c9BadDoc : SceneData :=
  ⟨"1.0", [], [⟨0, ⟨"triangle", none, none, none, none⟩⟩]⟩

/-- C9 (counterexample): an unknown sketch `type` is NOT skipped — the
sketch loop pushes a bare `{type}` record and emits no warning, so the
loaded store contains one sketch instead of zero. -/
theorem c9_counterexample :
    (loadSceneFromJSON c9BadDoc).sketches =
      [⟨"triangle", none, none, none, none⟩] ∧
    (loadSceneFromJSON c9BadDoc).warnings = [] := by decide

/-- A document mixing a loadable box, an unknown object kind, a loadable
rectangle sketch and an unknown sketch kind. -/
def c9WitDoc : SceneData :=
  ⟨"1.0",
   [⟨0, "box", ⟨0, 0, 0⟩, ⟨0, 0, 0⟩, ⟨1, 1, 1⟩, 100, some ⟨1, 1, 1⟩, none,
      none, none, none⟩,
    ⟨1, "tetra", ⟨0, 0, 0⟩, ⟨0, 0, 0⟩, ⟨1, 1, 1⟩, 100, none, none, none,
      none, none⟩],
   [⟨0, ⟨"rectangle", some 1, some 1, none, some ⟨0, 0, 0⟩⟩⟩,
    ⟨1, ⟨"blob", none, none, none, none⟩⟩]⟩

theorem c9_witness :
    (∀ o ∈ c9WitDoc.objects, buildOk o) ∧
    (∀ e ∈ c9WitDoc.sketches, buildSketchOk e) ∧
    ((loadSceneFromJSON c9WitDoc).ok = true ∧
     (loadSceneFromJSON c9WitDoc).objects.length =
       (c9WitDoc.objects.filter
         (fun o => ! decide (unknownObjType o))).length ∧
     (loadSceneFromJSON c9WitDoc).warnings =
       (c9WitDoc.objects.filter
         (fun o => decide (unknownObjType o))).map (·.type) ∧
     (loadSceneFromJSON c9WitDoc).sketches.length =
       c9WitDoc.sketches.length) :=
  ⟨by decide, by decide,
    c9_unknown_type_handling c9WitDoc (by decide) (by decide)⟩

/-- A parsable document whose rectangle sketch record lacks a `center`
field: rebuilding it throws on `sketchData.center.x`. -/
def c10BadDoc : SceneData :=
  ⟨"1.0", [], [⟨0, ⟨"rectangle", some 1, some 1, none, none⟩⟩]⟩

/-- C10 (confirmed): `loadSceneFromJSON` clears the store refs before
constructing any replacement entry, so when construction throws part-way
(here on a rectangle sketch with no `center`) the import leaves the store
holding only what was rebuilt before the throw — the prior contents are
gone, not preserved: store replacement is not atomic. -/
theorem c10_load_not_atomic (st : EditorState) (hne : st.objects ≠ []) :
    (loadSceneFromJSON c10BadDoc).ok = false ∧
    importScene st c10BadDoc =
      { st with objects := [], sketches := [] } ∧
    (importScene st c10BadDoc).objects ≠ st.objects := by
  have hload : loadSceneFromJSON c10BadDoc =
      { objects := [], sketches := [], warnings := [], ok := false } := by
    decide
  refine ⟨by rw [hload], ?_, ?_⟩
  · unfold importScene
    rw [hload]
    simp
  · unfold importScene
    rw [hload]
    intro h
    apply hne
    rw [← h]

/-- A prior scene with one box in the store. -/
def c10PriorState : EditorState := { initState with objects := [boxA] }

theorem c10_witness :
    c10PriorState.objects ≠ [] ∧
    ((loadSceneFromJSON c10BadDoc).ok = false ∧
     importScene c10PriorState c10BadDoc =
       { c10PriorState with objects := [], sketches := [] } ∧
     (importScene c10PriorState c10BadDoc).objects ≠
       c10PriorState.objects) :=
  ⟨by decide, c10_load_not_atomic c10PriorState (by decide)⟩
